import Mathlib

/-!
# Verification of the eTims integration engine (mtl_tims)

Shallow embedding of the remote-call transport, the invoice reconciliation
engine and the tax-allocation helpers of `mtl_tims/etims_integration`,
together with theorems settling the specification claims about them.

Numeric values that Python holds as `float` are modelled as exact rationals
(`ℚ`); Python's `round` builtin (banker's rounding, round-half-to-even) is
modelled by `pyRoundInt` / `pyRound0` / `pyRound2` below.  Python `dict`
bodies are modelled as association lists whose keys are unique.
-/

namespace MtlTims

/-- Executable floor of a rational: floor-division of numerator by
denominator (shown below to agree with `Int.floor`). -/
def ratFloor (q : ℚ) : ℤ := Int.fdiv q.num q.den

/-- `ratFloor` is the mathematical floor. -/
theorem ratFloor_eq_floor (q : ℚ) : ratFloor q = ⌊q⌋ := by
  rw [Rat.floor_def, ratFloor]
  exact Int.fdiv_eq_ediv _ (Int.ofNat_nonneg q.den)

/-- Python's `round(x)`: round a rational to the nearest integer,
rounding halves to the nearest even integer (banker's rounding). -/
def pyRoundInt (q : ℚ) : ℤ :=
  let n : ℤ := ratFloor q
  let frac : ℚ := q - n
  if frac < 1/2 then n
  else if 1/2 < frac then n + 1
  else if 2 ∣ n then n else n + 1

/-- Python's `round(x, 0)` on a rational (result kept as a rational). -/
def pyRound0 (q : ℚ) : ℚ := (pyRoundInt q : ℚ)

/-- Python's `round(x, 2)` on a rational: round to 2 decimal places,
halves to even. -/
def pyRound2 (q : ℚ) : ℚ := (pyRoundInt (q * 100) : ℚ) / 100

/-! ## Reconciliation: `is_invoice_data_matching`
(`apis/remote_response_status_handlers.py`) -/

/-- One entry of the local payload's `itemDetails` list; only the keys read
by `is_invoice_data_matching` are modelled. -/
structure PayloadItem where
  quantity : ℚ
  unit_price : ℚ
  deriving DecidableEq

/-- One line of the remote snapshot (`sales_invoice_lines` /
`sales_credit_note_lines`); only the keys read by
`is_invoice_data_matching` are modelled. -/
structure ResponseLine where
  quantity : ℚ
  price_inclusive_tax : ℚ
  deriving DecidableEq

/-- The local payload as far as `is_invoice_data_matching` reads it:
`payload.get('itemDetails', [])` and `payload.get('amount')`
(`none` models an absent key). -/
structure InvoicePayload where
  itemDetails : List PayloadItem
  amount : Option ℚ
  deriving DecidableEq

/-- The remote snapshot as far as the reconciliation engine reads it.
`none` models an absent dictionary key.  `scu_data` and `id` are the extra
keys read by `update_invoice_info`; the `scu_data` value itself is opaque
(only its presence is branched on). -/
structure RemoteSnapshot where
  sales_credit_note_lines : Option (List ResponseLine)
  sales_invoice_lines : Option (List ResponseLine)
  crn_total_amount : Option ℚ
  total_gross_amount : Option ℚ
  scu_data : Option ℕ
  id : String
  deriving DecidableEq

/-- A normalized line triple: `(qty, price, total)` after rounding,
exactly as `normalize` inside `is_invoice_data_matching` computes it. -/
abbrev NormTriple := ℚ × ℚ × ℚ

/-- `normalize(item)` of `is_invoice_data_matching`: quantity rounded to the
nearest whole number, price rounded to 2 decimals, total recomputed from the
rounded values and rounded to 2 decimals. -/
def normalizeLine (quantity unit_price : ℚ) : NormTriple :=
  let qty := pyRound0 quantity
  let price := pyRound2 unit_price
  let total := pyRound2 (qty * price)
  (qty, price, total)

/-- The matching loop of `is_invoice_data_matching`: each payload triple must
find a yet-unconsumed equal triple in the working remote list, consuming it
(`normalized_response.remove(p_norm)` removes one occurrence). -/
def matchLines : List NormTriple → List NormTriple → Bool
  | [], _ => true
  | p :: ps, rem =>
      if p ∈ rem then matchLines ps (@List.erase _ instBEqOfDecidableEq rem p) else false

/-- The remote line list that `is_invoice_data_matching` reads:
`sales_credit_note_lines` when that key is present, else
`sales_invoice_lines` (defaulting to `[]`). -/
def snapshotLines (resp : RemoteSnapshot) : List ResponseLine :=
  if resp.sales_credit_note_lines.isSome then resp.sales_credit_note_lines.getD []
  else resp.sales_invoice_lines.getD []

/-- The remote aggregate total that `is_invoice_data_matching` reads:
`crn_total_amount` for a credit note, else `total_gross_amount`, with
`x or 0` collapsing an absent value to `0`. -/
def snapshotTotal (resp : RemoteSnapshot) : ℚ :=
  if resp.sales_credit_note_lines.isSome then resp.crn_total_amount.getD 0
  else resp.total_gross_amount.getD 0

/-- The local aggregate total: `payload.get('amount') or sum(unit_price *
quantity)` — Python's `or` falls through on an absent *or zero* amount. -/
def payloadTotal (payload : InvoicePayload) : ℚ :=
  let lineSum := (payload.itemDetails.map fun i => i.unit_price * i.quantity).sum
  match payload.amount with
  | some a => if a = 0 then lineSum else a
  | none => lineSum

/-- `is_invoice_data_matching(payload, response_data)` from
`apis/remote_response_status_handlers.py`: line counts must be equal, the
aggregate totals must agree after rounding to the nearest whole number, and
every local normalized triple must consume a distinct unused remote triple. -/
def is_invoice_data_matching (payload : InvoicePayload) (resp : RemoteSnapshot) : Bool :=
  if payload.itemDetails.length ≠ (snapshotLines resp).length then false
  else if pyRound0 (payloadTotal payload) ≠ pyRound0 (snapshotTotal resp) then false
  else
    matchLines (payload.itemDetails.map fun p => normalizeLine p.quantity p.unit_price)
      ((snapshotLines resp).map fun i => normalizeLine i.quantity i.price_inclusive_tax)

/-- The matching loop only depends on the working remote list up to
permutation. -/
theorem matchLines_perm (ps : List NormTriple) :
    ∀ {rs rs' : List NormTriple}, rs.Perm rs' →
      matchLines ps rs = matchLines ps rs' := by
  induction ps with
  | nil => intro rs rs' _; rfl
  | cons p ps ih =>
      intro rs rs' h
      simp only [matchLines]
      by_cases hp : p ∈ rs
      · rw [if_pos hp, if_pos (h.mem_iff.mp hp)]
        exact ih (h.erase p)
      · rw [if_neg hp, if_neg (fun hc => hp (h.mem_iff.mpr hc))]

/-- Permuting the remote snapshot's line lists permutes the line list the
reconciliation reads. -/
theorem snapshotLines_perm (r r' : RemoteSnapshot)
    (hsome : r'.sales_credit_note_lines.isSome = r.sales_credit_note_lines.isSome)
    (hcn : (r'.sales_credit_note_lines.getD []).Perm (r.sales_credit_note_lines.getD []))
    (hsi : (r'.sales_invoice_lines.getD []).Perm (r.sales_invoice_lines.getD [])) :
    (snapshotLines r').Perm (snapshotLines r) := by
  unfold snapshotLines
  rw [hsome]
  by_cases h : r.sales_credit_note_lines.isSome <;> simp [h, hcn, hsi]

/-- Permuting the remote snapshot's line lists leaves the aggregate total the
reconciliation reads unchanged. -/
theorem snapshotTotal_perm (r r' : RemoteSnapshot)
    (hsome : r'.sales_credit_note_lines.isSome = r.sales_credit_note_lines.isSome)
    (hct : r'.crn_total_amount = r.crn_total_amount)
    (hgt : r'.total_gross_amount = r.total_gross_amount) :
    snapshotTotal r' = snapshotTotal r := by
  unfold snapshotTotal
  rw [hsome, hct, hgt]

/-- **C2.** `is_invoice_data_matching` returns `true` only if the local and
remote line counts are exactly equal, the aggregate amounts agree after
rounding to the nearest whole unit, and every local normalized
`(qty, price, total)` triple consumes a distinct as-yet-unused remote
triple; moreover, its outcome is unchanged under every permutation of the
remote snapshot's line list. -/
theorem is_invoice_data_matching_spec
    (payload : InvoicePayload) (r r' : RemoteSnapshot)
    (hsome : r'.sales_credit_note_lines.isSome = r.sales_credit_note_lines.isSome)
    (hcn : (r'.sales_credit_note_lines.getD []).Perm (r.sales_credit_note_lines.getD []))
    (hsi : (r'.sales_invoice_lines.getD []).Perm (r.sales_invoice_lines.getD []))
    (hct : r'.crn_total_amount = r.crn_total_amount)
    (hgt : r'.total_gross_amount = r.total_gross_amount) :
    is_invoice_data_matching payload r' = is_invoice_data_matching payload r ∧
    (is_invoice_data_matching payload r = true →
      payload.itemDetails.length = (snapshotLines r).length ∧
      pyRound0 (payloadTotal payload) = pyRound0 (snapshotTotal r) ∧
      matchLines (payload.itemDetails.map fun p => normalizeLine p.quantity p.unit_price)
        ((snapshotLines r).map fun i => normalizeLine i.quantity i.price_inclusive_tax)
        = true) := by
  have hlines := snapshotLines_perm r r' hsome hcn hsi
  have htot := snapshotTotal_perm r r' hsome hct hgt
  constructor
  · unfold is_invoice_data_matching
    rw [hlines.length_eq, htot]
    split_ifs with h1 h2
    · rfl
    · rfl
    · exact matchLines_perm _ (hlines.map _)
  · intro h
    unfold is_invoice_data_matching at h
    split_ifs at h with h1 h2
    exact ⟨not_ne_iff.mp h1, not_ne_iff.mp h2, h⟩

/-- Concrete local payload used to witness the reconciliation theorems. -/
def witnessPayload : InvoicePayload :=
  { itemDetails := [⟨1, 30⟩, ⟨2, 50⟩], amount := some 130 }

/-- Concrete remote snapshot used to witness the reconciliation theorems. -/
def witnessSnapshot : RemoteSnapshot :=
  { sales_credit_note_lines := none
    sales_invoice_lines := some [⟨2, 50⟩, ⟨1, 30⟩]
    crn_total_amount := none
    total_gross_amount := some 130
    scu_data := some 0
    id := "INV-1" }

/-- `witnessSnapshot` with its invoice line list permuted. -/
def witnessSnapshotPerm : RemoteSnapshot :=
  { witnessSnapshot with sales_invoice_lines := some [⟨1, 30⟩, ⟨2, 50⟩] }

/-- Witness for **C2**: the reconciliation theorem instantiated at a concrete
payload and a concretely permuted snapshot. -/
theorem is_invoice_data_matching_spec_witness :
    is_invoice_data_matching witnessPayload witnessSnapshotPerm
        = is_invoice_data_matching witnessPayload witnessSnapshot ∧
    (is_invoice_data_matching witnessPayload witnessSnapshot = true →
      witnessPayload.itemDetails.length = (snapshotLines witnessSnapshot).length ∧
      pyRound0 (payloadTotal witnessPayload) = pyRound0 (snapshotTotal witnessSnapshot) ∧
      matchLines
        (witnessPayload.itemDetails.map fun p => normalizeLine p.quantity p.unit_price)
        ((snapshotLines witnessSnapshot).map fun i =>
          normalizeLine i.quantity i.price_inclusive_tax) = true) :=
  is_invoice_data_matching_spec witnessPayload witnessSnapshot witnessSnapshotPerm
    (by decide) (by decide) (by decide) (by decide) (by decide)

/-! ## Reconciliation driver: `update_invoice_info`
(`apis/remote_response_status_handlers.py`) -/

/-- The fields of the local invoice document read by `update_invoice_info`.
`revision_count` is `none` when the field is unset (`doc.get("revision_count")
or 0` treats both `None` and `0` as `0`). -/
structure InvoiceDoc where
  is_return : Bool
  status : String
  revision_count : Option ℤ
  deriving DecidableEq

/-- The Frappe environment `update_invoice_info` consults: the payload
builders (`build_invoice_payload` / `build_return_invoice_payload`, opaque
here — only the reconciliation outcome on their result matters) and the
`max_allowed_revisions` value of the Navari eTims Settings document
(`none` when unset).  The setting is only read by the revision-ceiling
check at lines 504-510 of the mismatch branch, which — see
`UpdateOutcome.raisedImportError` — is unreachable, so the function below
never consults it; it is kept so that theorems can quantify over the
configured ceiling. -/
structure ReconEnv where
  buildInvoicePayload : InvoiceDoc → InvoicePayload
  buildReturnInvoicePayload : InvoiceDoc → RemoteSnapshot → InvoicePayload
  maxAllowedRevisions : Option ℤ

/-- What `update_invoice_info` ends up doing.  `raisedImportError` models
the mismatch branch (`elif doc.status != "Credit Note Issued":`): its first
statement, `from ..overrides.server.shared_overrides import
generic_invoices_on_submit_override`, raises `ImportError` because that
function exists only as commented-out code in `shared_overrides.py` — the
exception propagates before the revision count is computed, so no field is
persisted, no reversing credit note is enqueued and no submission is
triggered on this path. -/
inductive UpdateOutcome where
  | noScuData
  | matched (slade_id : String)
  | alreadyCreditNoteIssued
  | raisedImportError
  deriving DecidableEq

/-- `response.get("results", [])[0] if response.get("results") else response`:
the snapshot `update_invoice_info` actually works on, with the optional
`results` wrapper list passed alongside the response. -/
def unwrapResults (results : List RemoteSnapshot) (response : RemoteSnapshot) :
    RemoteSnapshot :=
  match results with
  | [] => response
  | d :: _ => d

/-- `update_invoice_info` from `apis/remote_response_status_handlers.py`.
The Frappe persistence calls are summarised by the returned
`UpdateOutcome`.  The mismatch branch (lines 500-529) dies at its first
statement: the import at line 501 names `generic_invoices_on_submit_override`,
whose only definitions in `shared_overrides.py` are commented out, so
`ImportError` is raised before the revision count at line 503 and the
ceiling check at line 510 can run — that whole branch collapses to
`raisedImportError`. -/
def update_invoice_info (env : ReconEnv) (results : List RemoteSnapshot)
    (response : RemoteSnapshot) (doc : InvoiceDoc) : UpdateOutcome :=
  let data := unwrapResults results response
  match data.scu_data with
  | none => .noScuData
  | some _ =>
      let invoice_data :=
        if doc.is_return then env.buildReturnInvoicePayload doc data
        else env.buildInvoicePayload doc
      if is_invoice_data_matching invoice_data data then .matched data.id
      else if doc.status ≠ "Credit Note Issued" then .raisedImportError
      else .alreadyCreditNoteIssued

/-- **C3.** On a mismatching snapshot for a document not already in the
"Credit Note Issued" state, `update_invoice_info` raises `ImportError` at
the first statement of the branch — for every configured ceiling and every
stored revision count, the revision count is never incremented or
persisted, no reversing credit note is enqueued and no submission is
triggered; in particular the clean ceiling stop the claim describes is
unreachable. -/
theorem update_invoice_info_mismatch_import_error
    (env : ReconEnv) (results : List RemoteSnapshot) (response : RemoteSnapshot)
    (doc : InvoiceDoc) (s : ℕ)
    (hscu : (unwrapResults results response).scu_data = some s)
    (hmismatch :
      is_invoice_data_matching
        (if doc.is_return then
            env.buildReturnInvoicePayload doc (unwrapResults results response)
          else env.buildInvoicePayload doc)
        (unwrapResults results response) = false)
    (hstatus : doc.status ≠ "Credit Note Issued") :
    update_invoice_info env results response doc = .raisedImportError := by
  unfold update_invoice_info
  simp only [hscu, hmismatch, Bool.false_eq_true, if_false]
  rw [if_pos hstatus]

/-- Environment used to witness the `update_invoice_info` theorems: the
builders always produce a one-line payload (which cannot match the zero-line
witness snapshot), and the configured ceiling is `3`. -/
def witnessReconEnv : ReconEnv :=
  { buildInvoicePayload := fun _ => witnessPayload
    buildReturnInvoicePayload := fun _ _ => witnessPayload
    maxAllowedRevisions := some 3 }

/-- Snapshot with `scu_data` present but no lines: it cannot match the
two-line `witnessPayload`. -/
def witnessMismatchSnapshot : RemoteSnapshot :=
  { sales_credit_note_lines := none
    sales_invoice_lines := some []
    crn_total_amount := none
    total_gross_amount := some 130
    scu_data := some 7
    id := "INV-2" }

/-- Document already at the configured ceiling of 3 revisions. -/
def witnessCeilingDoc : InvoiceDoc :=
  { is_return := false, status := "Submitted", revision_count := some 3 }

/-- Witness for **C3**: the failing input — a document whose revision count
is already at the configured ceiling of 3 hits a mismatching snapshot, and
the branch dies on the dead import instead of stopping cleanly. -/
theorem update_invoice_info_mismatch_import_error_witness :
    update_invoice_info witnessReconEnv [] witnessMismatchSnapshot witnessCeilingDoc
      = .raisedImportError :=
  update_invoice_info_mismatch_import_error witnessReconEnv [] witnessMismatchSnapshot
    witnessCeilingDoc 7 (by decide) (by decide) (by decide)

/-! ## Transport: `EndpointsBuilder.make_remote_call` (`apis/api_builder.py`)

The builder state carries the pieces of `self` that `make_remote_call`
reads and mutates (`_url`, `_payload`, `_headers["Authorization"]`,
`_method`); the setup validation at the top of the function is modelled by
requiring them to be present in the state.  The request body is an
association list with unique keys (a Python `dict`).  Side effects
(request-log writes, callbacks, logging) are recorded as an event trace;
the HTTP library and the token endpoint are an oracle `CallEnv`. -/

/-- `"sub" in s` on Python strings: `sub` occurs contiguously in `s`. -/
def strContains (s sub : String) : Bool := decide (sub.toList <:+: s.toList)

/-- `s.rstrip('/')` on Python strings: drop all trailing `'/'` characters. -/
def rstripSlash (s : String) : String :=
  { data := (s.data.reverse.dropWhile (fun c => c == '/')).reverse }

/-- `d.pop(key, None)` on a Python dict modelled as an association list:
the popped value (if any) and the remaining dict. -/
def dictPop (key : String) (d : List (String × String)) :
    Option String × List (String × String) :=
  match d.find? (fun kv => kv.1 == key) with
  | some kv => (some kv.2, d.eraseP (fun kv => kv.1 == key))
  | none => (none, d)

/-- The HTTP methods `EndpointsBuilder` dispatches on. -/
inductive HttpMethod where
  | GET | POST | PATCH | PUT
  deriving DecidableEq

/-- The mutable builder fields `make_remote_call` works with; `auth` is
`self._headers["Authorization"]`. -/
structure CallState where
  url : String
  payload : List (String × String)
  auth : String
  method : HttpMethod
  deriving DecidableEq

/-- The outside world for one `make_remote_call` invocation: `resp n` is the
outcome of the `n`-th HTTP send (`.error msg` models a transport-level
exception raised by `requests`, `.ok (status, data)` a response with its
decoded body represented by an opaque index), `refreshTok` is the token the
refresh endpoint would return (`none` models `refresh_token` raising), and
`hasErrorCb` is whether `self._error_callback_handler` is set. -/
structure CallEnv where
  resp : ℕ → Except String (ℕ × ℕ)
  refreshTok : Option String
  hasErrorCb : Bool

/-- The observable side effects of `make_remote_call`, in program order. -/
inductive Event where
  /-- `create_request_log(...)` (only on the non-retry leg). -/
  | createLog
  /-- An HTTP send (`requests.post/get/patch/put`) with the exact method,
  URL, `Authorization` header and body used. -/
  | send (method : HttpMethod) (url : String) (auth : String)
      (payload : List (String × String))
  /-- `update_last_request_date(...)` after a response arrived. -/
  | updateLastRequestDate
  /-- `frappe.db.set_value("Integration Request", ..., "status", "Completed")`. -/
  | dbSetCompleted
  /-- The success callback, with the opaque response-data index. -/
  | successCallback (data : ℕ)
  /-- `update_integration_request(..., status="Completed", ...)`. -/
  | updateLogCompleted
  /-- `update_integration_request(..., status="Failed", ...)`. -/
  | updateLogFailed
  /-- `on_slade_error(...)`. -/
  | sladeErrorHandler
  /-- The optional error callback. -/
  | errorCallback
  /-- A successful `refresh_token()` (headers updated with the new token). -/
  | refreshToken
  /-- `frappe.log_error(...)` in the `except` handler, with the message. -/
  | logError (msg : String)
  deriving DecidableEq

/-- The PATCH/PUT request preparation: pop `id` from the body and, when the
popped value is truthy and `"/{id}/"` does not occur in the URL, append
`"/{id}/"` to the right-stripped URL.  GET and POST leave the state alone. -/
def mungeForMethod (st : CallState) : CallState :=
  match st.method with
  | .PATCH | .PUT =>
      let pop := dictPop "id" st.payload
      let url :=
        match pop.1 with
        | some v =>
            if v ≠ "" ∧ ¬ strContains st.url ("/" ++ v ++ "/") then
              rstripSlash st.url ++ "/" ++ v ++ "/"
            else st.url
        | none => st.url
      { st with payload := pop.2, url := url }
  | _ => st

/-- One leg of `make_remote_call`.  `retryCont` stands for the recursive
`self.make_remote_call(doctype, document_name, retrying=True)` call; on the
retry leg itself the `not retrying` guard makes it unreachable, so the
retry leg is instantiated with a dummy continuation below.  Exceptions
escaping the `try` block (a transport error from `requests`, or
`refresh_token` raising) land in the `except` handler, which only calls
`frappe.log_error` and returns `None` — the observer notification that
would mark the request log Failed is commented out in the source. -/
def makeRemoteCallLeg (env : CallEnv)
    (retryCont : CallState → ℕ → List Event × Option ℕ)
    (st0 : CallState) (retrying : Bool) (attempt : ℕ) :
    List Event × Option ℕ :=
  let ev0 : List Event := if retrying then [] else [.createLog]
  let st := mungeForMethod st0
  let sendEv := Event.send st.method st.url st.auth st.payload
  match env.resp attempt with
  | .error msg => (ev0 ++ [sendEv, .logError msg], none)
  | .ok (status, d) =>
      let evs := ev0 ++ [sendEv, .updateLastRequestDate]
      if status = 200 ∨ status = 201 then
        (evs ++ [.dbSetCompleted, .successCallback d, .updateLogCompleted], some d)
      else
        let errEvs := evs ++ [.updateLogFailed, .sladeErrorHandler]
          ++ (if env.hasErrorCb then [.errorCallback] else [])
        if status = 401 ∧ retrying = false then
          match env.refreshTok with
          | some t =>
              let retried := retryCont { st with auth := "Bearer " ++ t } (attempt + 1)
              (errEvs ++ [.refreshToken] ++ retried.1, some d)
          | none => (errEvs ++ [.logError "Error refreshing token"], none)
        else (errEvs, some d)

/-- The retry leg (`retrying=True`): its own 401 branch is dead because of
the `not retrying` guard, so the continuation is never invoked. -/
def make_remote_call_retry (env : CallEnv) (st : CallState) (attempt : ℕ) :
    List Event × Option ℕ :=
  makeRemoteCallLeg env (fun _ _ => ([], none)) st true attempt

/-- `EndpointsBuilder.make_remote_call` (initial, non-retry invocation):
event trace plus the returned `response_data` (`none` for Python `None`). -/
def make_remote_call (env : CallEnv) (st : CallState) : List Event × Option ℕ :=
  makeRemoteCallLeg env (make_remote_call_retry env) st false 0

/-- Projection of a trace onto its HTTP sends. -/
def sendsOf (tr : List Event) : List (HttpMethod × String × String × List (String × String)) :=
  tr.filterMap fun e =>
    match e with
    | .send m u a p => some (m, u, a, p)
    | _ => none

/-- Recognises a successful token refresh in a trace. -/
def isRefreshEv : Event → Bool
  | .refreshToken => true
  | _ => false

/-- Recognises an `update_integration_request(..., status="Failed", ...)`. -/
def isFailMarkEv : Event → Bool
  | .updateLogFailed => true
  | _ => false

theorem mungeForMethod_method (st : CallState) :
    (mungeForMethod st).method = st.method := by
  rcases st with ⟨u, p, a, m⟩
  cases m <;> rfl

theorem mungeForMethod_auth (st : CallState) :
    (mungeForMethod st).auth = st.auth := by
  rcases st with ⟨u, p, a, m⟩
  cases m <;> rfl

/-- In a dict with unique keys, once the entry for `key` is removed it can no
longer be found. -/
theorem find_eraseP_of_nodup_keys (key : String) (p : List (String × String))
    (hnd : (p.map Prod.fst).Nodup) :
    (p.eraseP (fun kv => kv.1 == key)).find? (fun kv => kv.1 == key) = none := by
  induction p with
  | nil => rfl
  | cons kv tl ih =>
      simp only [List.map_cons, List.nodup_cons] at hnd
      by_cases h : kv.1 = key
      · rw [List.eraseP_cons_of_pos (by simpa using h)]
        refine List.find?_eq_none.mpr fun x hx => ?_
        simp only [beq_iff_eq]
        intro hxk
        apply hnd.1
        have hmem : x.1 ∈ tl.map Prod.fst := List.mem_map_of_mem Prod.fst hx
        rwa [hxk, ← h] at hmem
      · rw [List.eraseP_cons_of_neg (by simpa using h),
          List.find?_cons_of_neg _ (by simpa using h)]
        exact ih hnd.2

/-- Request preparation is idempotent for dict bodies with unique keys: the
retry leg re-pops `id` (already gone) and re-checks the URL suffix (already
present), so the retried request is the original one. -/
theorem mungeForMethod_idem (st : CallState) (a : String)
    (hnd : (st.payload.map Prod.fst).Nodup) :
    mungeForMethod
        ⟨(mungeForMethod st).url, (mungeForMethod st).payload, a,
          (mungeForMethod st).method⟩ =
      ⟨(mungeForMethod st).url, (mungeForMethod st).payload, a,
        (mungeForMethod st).method⟩ := by
  rcases st with ⟨u, p, a0, m⟩
  cases m
  case GET => rfl
  case POST => rfl
  case PATCH =>
    rcases hf : p.find? (fun kv => kv.1 == "id") with _ | kv
    · simp [mungeForMethod, dictPop, hf]
    · simp [mungeForMethod, dictPop, hf, find_eraseP_of_nodup_keys "id" p hnd]
  case PUT =>
    rcases hf : p.find? (fun kv => kv.1 == "id") with _ | kv
    · simp [mungeForMethod, dictPop, hf]
    · simp [mungeForMethod, dictPop, hf, find_eraseP_of_nodup_keys "id" p hnd]

/-- On the retry leg, a response (of any status) yields exactly one send —
of the re-prepared request — no token refresh, and a Failed request-log
update exactly when the status is not 200/201. -/
theorem make_remote_call_retry_eval (env : CallEnv) (st : CallState)
    (attempt s d : ℕ) (h : env.resp attempt = .ok (s, d)) :
    sendsOf (make_remote_call_retry env st attempt).1 =
      [((mungeForMethod st).method, (mungeForMethod st).url,
        (mungeForMethod st).auth, (mungeForMethod st).payload)] ∧
    (make_remote_call_retry env st attempt).1.countP isRefreshEv = 0 ∧
    (make_remote_call_retry env st attempt).1.countP isFailMarkEv =
      (if s = 200 ∨ s = 201 then 0 else 1) := by
  unfold make_remote_call_retry makeRemoteCallLeg
  by_cases h2 : s = 200 ∨ s = 201
  · simp [h, h2, sendsOf, isRefreshEv, isFailMarkEv]
  · by_cases hcb : env.hasErrorCb <;>
      simp [h, h2, hcb, sendsOf, isRefreshEv, isFailMarkEv]

/-- **C1.** When the first send returns HTTP 401 and a refresh is possible,
`make_remote_call` performs exactly one token refresh and exactly one
re-send of the original request (same method, URL and body) with the
updated `Authorization` header; when the retried call returns 401 again no
further refresh or re-send occurs (the trace has exactly two sends and one
refresh) and the call is surfaced as a failure (both legs mark the request
log Failed). -/
theorem make_remote_call_401_single_refresh_retry
    (env : CallEnv) (st : CallState) (d0 s1 d1 : ℕ) (t : String)
    (hkeys : (st.payload.map Prod.fst).Nodup)
    (h0 : env.resp 0 = .ok (401, d0))
    (h1 : env.resp 1 = .ok (s1, d1))
    (ht : env.refreshTok = some t) :
    (∃ u p, sendsOf (make_remote_call env st).1 =
        [(st.method, u, st.auth, p), (st.method, u, "Bearer " ++ t, p)]) ∧
    (make_remote_call env st).1.countP isRefreshEv = 1 ∧
    (s1 = 401 → (make_remote_call env st).1.countP isFailMarkEv = 2) := by
  have hidem := mungeForMethod_idem st ("Bearer " ++ t) hkeys
  have hretry := make_remote_call_retry_eval env
    ⟨(mungeForMethod st).url, (mungeForMethod st).payload, "Bearer " ++ t,
      (mungeForMethod st).method⟩ 1 s1 d1 h1
  rw [hidem] at hretry
  have hr1 := hretry.1
  have hr2 := hretry.2.1
  have hr3 := hretry.2.2
  simp only [sendsOf] at hr1
  have hcore : sendsOf (make_remote_call env st).1 =
      [((mungeForMethod st).method, (mungeForMethod st).url,
        (mungeForMethod st).auth, (mungeForMethod st).payload),
       ((mungeForMethod st).method, (mungeForMethod st).url,
        "Bearer " ++ t, (mungeForMethod st).payload)] := by
    unfold make_remote_call makeRemoteCallLeg
    simp only [h0, ht]
    by_cases hcb : env.hasErrorCb <;>
      simp [hcb, sendsOf, List.filterMap_append, hr1]
  rw [mungeForMethod_method, mungeForMethod_auth] at hcore
  refine ⟨⟨(mungeForMethod st).url, (mungeForMethod st).payload, hcore⟩, ?_, ?_⟩
  · unfold make_remote_call makeRemoteCallLeg
    simp only [h0, ht]
    by_cases hcb : env.hasErrorCb <;>
      simp [hcb, List.countP_append, hr2, isRefreshEv]
  · intro hs1
    subst hs1
    unfold make_remote_call makeRemoteCallLeg
    simp only [h0, ht]
    by_cases hcb : env.hasErrorCb <;>
      simp [hcb, List.countP_append, hr3, isFailMarkEv]

/-- Environment used to witness **C1**: both sends come back 401 and the
token endpoint hands out `"tok2"`. -/
def witnessEnvC1 : CallEnv :=
  { resp := fun n => if n = 0 then .ok (401, 10) else .ok (401, 11)
    refreshTok := some "tok2"
    hasErrorCb := true }

/-- Builder state used to witness **C1**. -/
def witnessStC1 : CallState :=
  { url := "https://api.example.com/items"
    payload := [("a", "1")]
    auth := "Bearer tok1"
    method := .POST }

/-- Witness for **C1** at a concrete environment and state. -/
theorem make_remote_call_401_single_refresh_retry_witness :
    (∃ u p, sendsOf (make_remote_call witnessEnvC1 witnessStC1).1 =
        [(witnessStC1.method, u, witnessStC1.auth, p),
         (witnessStC1.method, u, "Bearer " ++ "tok2", p)]) ∧
    (make_remote_call witnessEnvC1 witnessStC1).1.countP isRefreshEv = 1 ∧
    (401 = 401 →
      (make_remote_call witnessEnvC1 witnessStC1).1.countP isFailMarkEv = 2) :=
  make_remote_call_401_single_refresh_retry witnessEnvC1 witnessStC1 10 401 11 "tok2"
    (by decide) rfl rfl rfl

/-- **C4 (amended).** On a transport-level exception the call returns a
failure result (`None`) and the error is written to the system error log —
but the Integration Request log is *not* marked Failed: the
`self.error/self.notify()` observer path in the `except` handler is
commented out in the source, so no `update_integration_request(...,
status="Failed")` happens on this path. -/
theorem make_remote_call_transport_exception (env : CallEnv) (st : CallState)
    (msg : String) (h : env.resp 0 = .error msg) :
    (make_remote_call env st).2 = none ∧
    Event.logError msg ∈ (make_remote_call env st).1 ∧
    (make_remote_call env st).1.countP isFailMarkEv = 0 := by
  unfold make_remote_call makeRemoteCallLeg
  simp [h, isFailMarkEv]

/-- Environment for the **C4** refutation: the only send raises
"Connection timed out". -/
def cexEnvC4 : CallEnv :=
  { resp := fun _ => .error "Connection timed out"
    refreshTok := none
    hasErrorCb := false }

/-- Builder state for the **C4** refutation. -/
def cexStC4 : CallState :=
  { url := "https://api.example.com/items"
    payload := []
    auth := "Bearer tok"
    method := .POST }

/-- Counterexample for **C4** as stated: on a transport exception the call
does return a failure result, but the trace contains no
`update_integration_request(..., status="Failed")` event at all — the
request log is *not* marked Failed with the exception text. -/
theorem make_remote_call_transport_exception_counterexample :
    (make_remote_call cexEnvC4 cexStC4).2 = none ∧
    (make_remote_call cexEnvC4 cexStC4).1.countP isFailMarkEv = 0 ∧
    Event.logError "Connection timed out" ∈ (make_remote_call cexEnvC4 cexStC4).1 := by
  decide

/-- Environment for the **C4** witness: the send raises "read timeout". -/
def witnessEnvC4 : CallEnv :=
  { resp := fun _ => .error "read timeout"
    refreshTok := none
    hasErrorCb := true }

/-- Builder state for the **C4** witness. -/
def witnessStC4 : CallState :=
  { url := "https://api.example.com/customers"
    payload := [("q", "1")]
    auth := "Bearer tok"
    method := .GET }

/-- Witness for **C4 (amended)** at a concrete environment and state. -/
theorem make_remote_call_transport_exception_witness :
    (make_remote_call witnessEnvC4 witnessStC4).2 = none ∧
    Event.logError "read timeout" ∈ (make_remote_call witnessEnvC4 witnessStC4).1 ∧
    (make_remote_call witnessEnvC4 witnessStC4).1.countP isFailMarkEv = 0 :=
  make_remote_call_transport_exception witnessEnvC4 witnessStC4 "read timeout" rfl

/-- Computation of the PATCH/PUT request preparation when the body's first
`id` entry holds a non-empty value `v`: `id` is popped out and the URL gets
`"/v/"` appended (after right-stripping slashes) exactly when `"/v/"` does
not already occur in the URL. -/
theorem mungeForMethod_eq_of_find (st : CallState) (v : String)
    (hm : st.method = HttpMethod.PATCH ∨ st.method = HttpMethod.PUT)
    (hv : v ≠ "")
    (hfind : st.payload.find? (fun kv => kv.1 == "id") = some ("id", v)) :
    mungeForMethod st =
      ⟨(if strContains st.url ("/" ++ v ++ "/") then st.url
        else rstripSlash st.url ++ "/" ++ v ++ "/"),
       st.payload.eraseP (fun kv => kv.1 == "id"), st.auth, st.method⟩ := by
  rcases st with ⟨u, p, a, m⟩
  simp only at hfind
  rcases hm with hm | hm <;> simp only at hm <;> subst hm <;>
    simp only [mungeForMethod, dictPop, hfind] <;>
    by_cases hc : strContains u ("/" ++ v ++ "/") <;>
    simp [hc, hv]

/-- In every branch of `make_remote_call`, the first HTTP send is of the
prepared request. -/
theorem sendsOf_make_remote_call_head (env : CallEnv) (st : CallState) :
    (sendsOf (make_remote_call env st).1).head? =
      some ((mungeForMethod st).method, (mungeForMethod st).url,
        (mungeForMethod st).auth, (mungeForMethod st).payload) := by
  unfold make_remote_call makeRemoteCallLeg
  rcases henv : env.resp 0 with msg | ⟨s, d⟩
  · simp [sendsOf]
  · by_cases h2 : s = 200 ∨ s = 201
    · simp [h2, sendsOf]
    · by_cases h4 : s = 401
      · subst h4
        rcases hrt : env.refreshTok with _ | tk
        · by_cases hcb : env.hasErrorCb <;>
            simp [h2, hrt, hcb, sendsOf, List.filterMap_append]
        · by_cases hcb : env.hasErrorCb <;>
            simp [h2, hrt, hcb, sendsOf, List.filterMap_append]
      · by_cases hcb : env.hasErrorCb <;>
          simp [h2, h4, hcb, sendsOf, List.filterMap_append]

/-- **C5 (amended).** For every PATCH or PUT request whose body carries a
non-empty `id` value `v`, `make_remote_call` removes `id` from the body
before sending, and the request is sent to the URL with `"/v/"` appended
to the slash-stripped URL when `"/v/"` does not already occur in the URL;
when `"/v/"` already occurs (in particular, when the URL already ends in
that suffix) the URL is left unchanged. -/
theorem make_remote_call_patch_put_id (env : CallEnv) (st : CallState) (v : String)
    (hm : st.method = HttpMethod.PATCH ∨ st.method = HttpMethod.PUT)
    (hv : v ≠ "")
    (hfind : st.payload.find? (fun kv => kv.1 == "id") = some ("id", v))
    (hkeys : (st.payload.map Prod.fst).Nodup) :
    (sendsOf (make_remote_call env st).1).head? =
      some (st.method,
        (if strContains st.url ("/" ++ v ++ "/") then st.url
         else rstripSlash st.url ++ "/" ++ v ++ "/"),
        st.auth,
        st.payload.eraseP (fun kv => kv.1 == "id")) ∧
    (st.payload.eraseP (fun kv => kv.1 == "id")).find? (fun kv => kv.1 == "id")
      = none := by
  refine ⟨?_, find_eraseP_of_nodup_keys "id" st.payload hkeys⟩
  rw [sendsOf_make_remote_call_head, mungeForMethod_eq_of_find st v hm hv hfind]

/-- Builder state for the **C5** refutation: PATCH with an *empty* `id`
value and a URL not containing `"//"`. -/
def cexStC5 : CallState :=
  { url := "x", payload := [("id", "")], auth := "Bearer tok", method := .PATCH }

/-- Environment for the **C5** refutation. -/
def cexEnvC5 : CallEnv :=
  { resp := fun _ => .ok (200, 0), refreshTok := none, hasErrorCb := false }

/-- Counterexample for **C5** as stated (quantifying over *every* `id`
value): with body `{"id": ""}` the URL `"x"` does not contain the suffix
`"//"`, yet the request is sent to `"x"` unchanged — Python's truthiness
check `if patch_id` skips the append for an empty id — while the claim
demands the suffixed URL `"x//"`. -/
theorem make_remote_call_patch_put_id_counterexample :
    strContains cexStC5.url ("/" ++ "" ++ "/") = false ∧
    (sendsOf (make_remote_call cexEnvC5 cexStC5).1).map (fun s => s.2.1) = ["x"] ∧
    "x" ≠ rstripSlash "x" ++ "/" ++ "" ++ "/" := by
  decide

/-- Builder state for the **C5** witness: PATCH, id `"42"`, URL without
`"/42/"`. -/
def witnessStC5 : CallState :=
  { url := "https://api.example.com/resource"
    payload := [("id", "42"), ("name", "n")]
    auth := "Bearer tok"
    method := .PATCH }

/-- Witness for **C5 (amended)** at a concrete state: the send goes to
`.../resource/42/` and the body no longer contains `id`. -/
theorem make_remote_call_patch_put_id_witness :
    (sendsOf (make_remote_call cexEnvC5 witnessStC5).1).head? =
      some (witnessStC5.method,
        (if strContains witnessStC5.url ("/" ++ "42" ++ "/") then witnessStC5.url
         else rstripSlash witnessStC5.url ++ "/" ++ "42" ++ "/"),
        witnessStC5.auth,
        witnessStC5.payload.eraseP (fun kv => kv.1 == "id")) ∧
    (witnessStC5.payload.eraseP (fun kv => kv.1 == "id")).find?
      (fun kv => kv.1 == "id") = none :=
  make_remote_call_patch_put_id cexEnvC5 witnessStC5 "42" (Or.inl rfl)
    (by decide) (by decide) (by decide)

/-! ## Response decoding: `get_response_data` (`apis/api_builder.py`) -/

/-- Python `s.lower()` (ASCII case folding suffices for media types). -/
def strToLower (s : String) : String := { data := s.data.map Char.toLower }

/-- Python `s.strip()`: drop leading and trailing whitespace. -/
def strStrip (s : String) : String :=
  { data := ((s.data.dropWhile Char.isWhitespace).reverse.dropWhile
      Char.isWhitespace).reverse }

/-- What `get_response_data` can return: a parsed JSON object (opaque
handle, standing for `response.json()`), the raw text, the raw bytes, or
Python `None`. -/
inductive DecodedBody where
  | jsonVal (v : ℕ)
  | strVal (s : String)
  | bytesVal (b : List ℕ)
  | absent
  deriving DecidableEq

/-- The parts of a `requests.Response` that `get_response_data` reads:
the `Content-Type` header (`""` when missing), `response.text`,
`response.content` and an opaque handle for `response.json()`. -/
structure HttpResponse where
  contentType : String
  body : String
  content : List ℕ
  json : ℕ
  deriving DecidableEq

/-- `get_response_data` from `apis/api_builder.py`: content-type driven
decoding, with substring matching on the lower-cased `Content-Type`. -/
def get_response_data (r : HttpResponse) : DecodedBody :=
  if strContains (strToLower r.contentType) "application/json" then .jsonVal r.json
  else if strContains (strToLower r.contentType) "text/plain"
      || strContains (strToLower r.contentType) "text/html" then
    (if strStrip r.body ≠ "" then .strVal r.body else .absent)
  else if strContains (strToLower r.contentType) "application/xml"
      || strContains (strToLower r.contentType) "text/xml" then
    (if strStrip r.body ≠ "" then .strVal r.body else .absent)
  else if strContains (strToLower r.contentType) "application/octet-stream"
      || strContains (strToLower r.contentType) "application/pdf"
      || strContains (strToLower r.contentType) "application/zip" then
    .bytesVal r.content
  else .absent

/-- **C6 (amended).** `get_response_data` decodes by `Content-Type`
(matched as a lower-cased substring): `application/json` yields the parsed
JSON object; exactly the four types `text/plain`, `text/html`,
`application/xml` and `text/xml` (not every `text/*`) yield the raw body
string, with an empty or whitespace-only body yielding absent (`None`)
rather than an empty string; `application/octet-stream`, `application/pdf`
and `application/zip` yield the raw bytes; any other content type yields
absent. -/
theorem get_response_data_spec (r : HttpResponse) :
    (strContains (strToLower r.contentType) "application/json" = true →
      get_response_data r = .jsonVal r.json) ∧
    (strContains (strToLower r.contentType) "application/json" = false →
      (strContains (strToLower r.contentType) "text/plain" = true ∨
       strContains (strToLower r.contentType) "text/html" = true ∨
       strContains (strToLower r.contentType) "application/xml" = true ∨
       strContains (strToLower r.contentType) "text/xml" = true) →
      get_response_data r =
        (if strStrip r.body ≠ "" then .strVal r.body else .absent)) ∧
    (strContains (strToLower r.contentType) "application/json" = false →
      strContains (strToLower r.contentType) "text/plain" = false →
      strContains (strToLower r.contentType) "text/html" = false →
      strContains (strToLower r.contentType) "application/xml" = false →
      strContains (strToLower r.contentType) "text/xml" = false →
      (strContains (strToLower r.contentType) "application/octet-stream" = true ∨
       strContains (strToLower r.contentType) "application/pdf" = true ∨
       strContains (strToLower r.contentType) "application/zip" = true) →
      get_response_data r = .bytesVal r.content) ∧
    (strContains (strToLower r.contentType) "application/json" = false →
      strContains (strToLower r.contentType) "text/plain" = false →
      strContains (strToLower r.contentType) "text/html" = false →
      strContains (strToLower r.contentType) "application/xml" = false →
      strContains (strToLower r.contentType) "text/xml" = false →
      strContains (strToLower r.contentType) "application/octet-stream" = false →
      strContains (strToLower r.contentType) "application/pdf" = false →
      strContains (strToLower r.contentType) "application/zip" = false →
      get_response_data r = .absent) := by
  refine ⟨fun h1 => ?_, fun h1 h2 => ?_, fun h1 h2 h3 h4 h5 h6 => ?_,
    fun h1 h2 h3 h4 h5 h6 h7 h8 => ?_⟩ <;>
    unfold get_response_data
  · simp [h1]
  · rcases h2 with h2 | h2 | h2 | h2 <;> simp [h1, h2]
  · simp [h1, h2, h3, h4, h5]
    rcases h6 with h6 | h6 | h6 <;> simp [h6]
  · simp [h1, h2, h3, h4, h5, h6, h7, h8]

/-- Response for the **C6** refutation: `text/csv` with a non-empty body. -/
def cexRespC6 : HttpResponse :=
  { contentType := "text/csv", body := "a,b", content := [], json := 0 }

/-- Counterexample for **C6** as stated: `text/csv` is a `text/*` content
type with a non-empty body, yet `get_response_data` yields absent (`None`)
— the decoder only recognises `text/plain` and `text/html` among `text/*`
types. -/
theorem get_response_data_counterexample :
    "text/".data <+: cexRespC6.contentType.data ∧
    get_response_data cexRespC6 = .absent ∧
    DecodedBody.absent ≠ .strVal cexRespC6.body := by
  refine ⟨by decide, rfl, by decide⟩

/-- Witness for **C6 (amended)**: the four branches instantiated at
concrete responses — JSON, `text/html` with a whitespace-only body (which
yields absent, not the empty string), PDF bytes, and an unknown type. -/
theorem get_response_data_spec_witness :
    get_response_data ⟨"application/json", "{}", [], 5⟩ = .jsonVal 5 ∧
    get_response_data ⟨"text/html; charset=utf-8", " ", [], 0⟩ =
      (if strStrip " " ≠ "" then DecodedBody.strVal " " else .absent) ∧
    get_response_data ⟨"application/pdf", "", [37, 80], 0⟩ = .bytesVal [37, 80] ∧
    get_response_data ⟨"image/png", "", [1], 0⟩ = .absent :=
  ⟨(get_response_data_spec ⟨"application/json", "{}", [], 5⟩).1 (by decide),
   (get_response_data_spec ⟨"text/html; charset=utf-8", " ", [], 0⟩).2.1 (by decide)
     (by decide),
   (get_response_data_spec ⟨"application/pdf", "", [37, 80], 0⟩).2.2.1 (by decide)
     (by decide) (by decide) (by decide) (by decide) (by decide),
   (get_response_data_spec ⟨"image/png", "", [1], 0⟩).2.2.2 (by decide) (by decide)
     (by decide) (by decide) (by decide) (by decide) (by decide) (by decide)⟩

/-! ## Tax allocation: `calculate_tax` and helpers (`utils.py`) -/

/-- Python truthiness of an optional string (absent or empty ⇒ falsy). -/
def optStrTruthy (o : Option String) : Bool :=
  match o with
  | some s => decide (s ≠ "")
  | none => false

/-- One row of the document's `taxes` child table; only `tax_amount` is
read. -/
structure TaxRow where
  tax_amount : ℚ
  deriving DecidableEq

/-- One line of `doc.items` as the tax-calculation helpers read and write
it. -/
structure DocItem where
  item_code : String
  base_net_amount : ℚ
  item_tax_template : Option String
  custom_tax_amount : ℚ
  custom_tax_rate : ℚ
  taxation_type_code : String
  deriving DecidableEq

/-- The document as the tax-calculation helpers see it. -/
structure TaxDoc where
  items : List DocItem
  taxes : List TaxRow
  deriving DecidableEq

/-- The Frappe lookups the tax helpers perform: `get_item_tax_rate`
(sum of the Item Tax Template's rates) and the template's
`custom_etims_taxation_type` (`""` models Python `None`/empty).  The
item-registration side effect in `_set_taxation_type_codes` has no bearing
on the computed fields and is not modelled. -/
structure TaxEnv where
  itemTaxRate : String → ℚ
  templateTaxationType : String → String

/-- `_calculate_item_level_taxes` from `utils.py`: each line's tax comes
from its own template rate (`tax_amount = net * rate / 100 if tax_rate
else 0` — Python truthiness makes a `0` rate yield `0`). -/
def _calculate_item_level_taxes (env : TaxEnv) (doc : TaxDoc) : TaxDoc :=
  { doc with
    items := doc.items.map fun item =>
      let tax_rate : Option ℚ :=
        if optStrTruthy item.item_tax_template then
          some (env.itemTaxRate (item.item_tax_template.getD ""))
        else none
      let tax_amount :=
        match tax_rate with
        | some r => if r ≠ 0 then item.base_net_amount * r / 100 else 0
        | none => 0
      let rate :=
        match tax_rate with
        | some r => if r ≠ 0 then r else 0
        | none => 0
      { item with custom_tax_amount := tax_amount, custom_tax_rate := rate } }

/-- `_calculate_document_level_taxes` from `utils.py`: the document taxes'
total is distributed across the lines in proportion to each line's
`base_net_amount`; a zero total net amount short-circuits. -/
def _calculate_document_level_taxes (doc : TaxDoc) (taxes : List TaxRow) : TaxDoc :=
  if (doc.items.map fun i => i.base_net_amount).sum = 0 then doc
  else
    { doc with
      items := doc.items.map fun item =>
        let amt := (taxes.map fun t => t.tax_amount).sum *
          (item.base_net_amount / (doc.items.map fun i => i.base_net_amount).sum)
        { item with
          custom_tax_amount := amt
          custom_tax_rate :=
            if item.base_net_amount > 0 then amt / item.base_net_amount * 100
            else 0 } }

/-- `_get_taxation_type_from_template` from `utils.py` (`""` models a
falsy lookup result). -/
def _get_taxation_type_from_template (env : TaxEnv) (item : DocItem) : String :=
  if optStrTruthy item.item_tax_template then
    env.templateTaxationType (item.item_tax_template.getD "")
  else ""

/-- `_get_taxation_type_from_rate` from `utils.py`: thresholds are applied
to `round(item.custom_tax_rate)` (banker's rounding), except the zero test
which is on the raw rate. -/
def _get_taxation_type_from_rate (item : DocItem) : String :=
  if pyRoundInt item.custom_tax_rate ≥ 16 then "B"
  else if pyRoundInt item.custom_tax_rate ≥ 8 then "E"
  else if item.custom_tax_rate = 0 then "A"
  else ""

/-- The `or`-chain of `_set_taxation_type_codes`: template code, then
rate-derived code, then the fallback default `"A"`. -/
def assignTaxationTypeCode (env : TaxEnv) (item : DocItem) : String :=
  if _get_taxation_type_from_template env item ≠ "" then
    _get_taxation_type_from_template env item
  else if _get_taxation_type_from_rate item ≠ "" then
    _get_taxation_type_from_rate item
  else "A"

/-- `_set_taxation_type_codes` from `utils.py` (the eTims item-registration
side effect does not change any modelled field). -/
def _set_taxation_type_codes (env : TaxEnv) (doc : TaxDoc) : TaxDoc :=
  { doc with
    items := doc.items.map fun item =>
      { item with taxation_type_code := assignTaxationTypeCode env item } }

/-- `calculate_tax` from `utils.py`: item-level strategy whenever any line
carries a (truthy) tax template, else document-level strategy when tax rows
exist, then taxation-type codes for all lines. -/
def calculate_tax (env : TaxEnv) (doc : TaxDoc) : TaxDoc :=
  let doc1 :=
    if doc.items.any fun item => optStrTruthy item.item_tax_template then
      _calculate_item_level_taxes env doc
    else if doc.taxes ≠ [] then _calculate_document_level_taxes doc doc.taxes
    else doc
  _set_taxation_type_codes env doc1

/-- Setting taxation-type codes leaves every line's tax amount unchanged. -/
theorem set_codes_preserves_amounts (env : TaxEnv) (doc : TaxDoc) :
    ((_set_taxation_type_codes env doc).items.map fun i => i.custom_tax_amount)
      = doc.items.map fun i => i.custom_tax_amount := by
  simp only [_set_taxation_type_codes, List.map_map]
  rfl

theorem sum_map_mul_div (T N : ℚ) (l : List DocItem) :
    (l.map fun item => T * (item.base_net_amount / N)).sum
      = T / N * (l.map fun i => i.base_net_amount).sum := by
  induction l with
  | nil => simp
  | cons a tl ih =>
      simp only [List.map_cons, List.sum_cons, ih]
      ring

/-- Distribution conserves the total: document-level allocation sums back
to the original total tax amount whenever the total net amount is
nonzero. -/
theorem document_level_taxes_sum (doc : TaxDoc) (taxes : List TaxRow)
    (hnet : (doc.items.map fun i => i.base_net_amount).sum ≠ 0) :
    ((_calculate_document_level_taxes doc taxes).items.map
        fun i => i.custom_tax_amount).sum
      = (taxes.map fun t => t.tax_amount).sum := by
  unfold _calculate_document_level_taxes
  rw [if_neg hnet]
  simp only [List.map_map]
  have heq : ((doc.items.map fun i => i.base_net_amount).sum)⁻¹ *
      0 = 0 := by ring
  calc ((doc.items.map fun item =>
          ((fun item => { item with
              custom_tax_amount := (taxes.map fun t => t.tax_amount).sum *
                (item.base_net_amount / (doc.items.map fun i => i.base_net_amount).sum)
              custom_tax_rate :=
                if item.base_net_amount > 0 then
                  (taxes.map fun t => t.tax_amount).sum *
                    (item.base_net_amount /
                      (doc.items.map fun i => i.base_net_amount).sum) /
                    item.base_net_amount * 100
                else 0 } : DocItem → DocItem) item |>.custom_tax_amount)).sum)
        = (doc.items.map fun item =>
            (taxes.map fun t => t.tax_amount).sum *
              (item.base_net_amount /
                (doc.items.map fun i => i.base_net_amount).sum)).sum := rfl
    _ = (taxes.map fun t => t.tax_amount).sum /
          (doc.items.map fun i => i.base_net_amount).sum *
          (doc.items.map fun i => i.base_net_amount).sum :=
        sum_map_mul_div _ _ _
    _ = (taxes.map fun t => t.tax_amount).sum := div_mul_cancel₀ _ hnet

/-- Rounding an integer value is the identity. -/
theorem pyRoundInt_intCast (n : ℤ) : pyRoundInt (n : ℚ) = n := by
  unfold pyRoundInt
  rw [ratFloor_eq_floor, Int.floor_intCast]
  simp only [sub_self]
  norm_num

/-- **C7.** Under the document-level strategy — no line carries a (truthy)
item tax template, document-level tax rows exist, and the total net amount
is nonzero — the allocated per-line `custom_tax_amount` values of
`calculate_tax` sum back to the document's total tax amount. -/
theorem calculate_tax_document_level_conservation (env : TaxEnv) (doc : TaxDoc)
    (hnone : ∀ item ∈ doc.items, optStrTruthy item.item_tax_template = false)
    (htaxes : doc.taxes ≠ [])
    (hnet : (doc.items.map fun i => i.base_net_amount).sum ≠ 0) :
    ((calculate_tax env doc).items.map fun i => i.custom_tax_amount).sum
      = (doc.taxes.map fun t => t.tax_amount).sum := by
  unfold calculate_tax
  have hany : (doc.items.any fun item => optStrTruthy item.item_tax_template)
      = false := by
    rw [List.any_eq_false]
    intro x hx
    simp [hnone x hx]
  simp only [hany, Bool.false_eq_true, if_false, if_pos htaxes]
  rw [set_codes_preserves_amounts]
  exact document_level_taxes_sum doc doc.taxes hnet

/-- Environment for the tax witnesses: templates are never consulted. -/
def witnessTaxEnv : TaxEnv :=
  { itemTaxRate := fun _ => 16, templateTaxationType := fun _ => "" }

/-- Two-line document with a single document-level tax row of 64. -/
def witnessTaxDoc : TaxDoc :=
  { items :=
      [⟨"IT-1", 100, none, 0, 0, ""⟩, ⟨"IT-2", 300, none, 0, 0, ""⟩]
    taxes := [⟨64⟩] }

/-- Witness for **C7** at a concrete document. -/
theorem calculate_tax_document_level_conservation_witness :
    ((calculate_tax witnessTaxEnv witnessTaxDoc).items.map
        fun i => i.custom_tax_amount).sum
      = (witnessTaxDoc.taxes.map fun t => t.tax_amount).sum :=
  calculate_tax_document_level_conservation witnessTaxEnv witnessTaxDoc
    (by decide) (by decide) (by norm_num [witnessTaxDoc])

/-- The rate-derived code is `"B"` when the rounded rate is at least 16. -/
theorem rate_code_B (item : DocItem) (h : 16 ≤ pyRoundInt item.custom_tax_rate) :
    _get_taxation_type_from_rate item = "B" := by
  unfold _get_taxation_type_from_rate
  rw [if_pos h]

/-- The rate-derived code is `"E"` when the rounded rate is in `[8, 16)`. -/
theorem rate_code_E (item : DocItem) (h8 : 8 ≤ pyRoundInt item.custom_tax_rate)
    (h16 : pyRoundInt item.custom_tax_rate < 16) :
    _get_taxation_type_from_rate item = "E" := by
  unfold _get_taxation_type_from_rate
  rw [if_neg (by omega), if_pos h8]

/-- The rate-derived code is `"A"` for a zero rate. -/
theorem rate_code_A (item : DocItem) (h : item.custom_tax_rate = 0) :
    _get_taxation_type_from_rate item = "A" := by
  have h0 : pyRoundInt item.custom_tax_rate = 0 := by
    rw [h, show (0 : ℚ) = ((0 : ℤ) : ℚ) by norm_num, pyRoundInt_intCast]
  unfold _get_taxation_type_from_rate
  rw [if_neg (by omega), if_neg (by omega), if_pos h]

/-- The rate-derived code is empty when the rounded rate is below 8 and the
raw rate is nonzero. -/
theorem rate_code_none (item : DocItem) (h8 : pyRoundInt item.custom_tax_rate < 8)
    (h0 : item.custom_tax_rate ≠ 0) :
    _get_taxation_type_from_rate item = "" := by
  unfold _get_taxation_type_from_rate
  rw [if_neg (by omega), if_neg (by omega), if_neg h0]

/-- When the template supplies no code, the `or`-chain falls through to the
rate-derived code with fallback `"A"`. -/
theorem assign_of_template_empty (env : TaxEnv) (item : DocItem)
    (htmpl : _get_taxation_type_from_template env item = "") :
    assignTaxationTypeCode env item =
      (if _get_taxation_type_from_rate item ≠ "" then
        _get_taxation_type_from_rate item
      else "A") := by
  unfold assignTaxationTypeCode
  simp [htmpl]

/-- **C8 (amended).** When an item's taxation code is derived from its
back-computed rate (its tax template supplies no code), the assigned code
is `"B"` when the *banker's-rounded* rate is at least 16, `"E"` when the
rounded rate is at least 8 and below 16, `"A"` when the rate is exactly 0,
and the fallback default `"A"` otherwise. -/
theorem taxation_code_from_rate_spec (env : TaxEnv) (item : DocItem)
    (htmpl : _get_taxation_type_from_template env item = "") :
    (16 ≤ pyRoundInt item.custom_tax_rate →
      assignTaxationTypeCode env item = "B") ∧
    (8 ≤ pyRoundInt item.custom_tax_rate → pyRoundInt item.custom_tax_rate < 16 →
      assignTaxationTypeCode env item = "E") ∧
    (item.custom_tax_rate = 0 → assignTaxationTypeCode env item = "A") ∧
    (pyRoundInt item.custom_tax_rate < 8 → item.custom_tax_rate ≠ 0 →
      assignTaxationTypeCode env item = "A") := by
  refine ⟨fun h => ?_, fun h8 h16 => ?_, fun h0 => ?_, fun h8 h0 => ?_⟩ <;>
    rw [assign_of_template_empty env item htmpl]
  · rw [rate_code_B item h]
    simp
  · rw [rate_code_E item h8 h16]
    simp
  · rw [rate_code_A item h0]
    simp
  · rw [rate_code_none item h8 h0]
    simp

/-- `round(15.5)` is 16 under banker's rounding (15 is odd). -/
theorem pyRoundInt_fifteen_and_a_half : pyRoundInt ((31 : ℚ)/2) = 16 := by
  have hf : ⌊(31 : ℚ)/2⌋ = 15 := by
    rw [Int.floor_eq_iff]
    norm_num
  unfold pyRoundInt
  rw [ratFloor_eq_floor, hf]
  norm_num

/-- Environment for the **C8** refutation and witness. -/
def cexTaxEnvC8 : TaxEnv :=
  { itemTaxRate := fun _ => 0, templateTaxationType := fun _ => "" }

/-- Item with back-computed rate 15.5 and no tax template. -/
def cexItemC8 : DocItem :=
  { item_code := "IT-3", base_net_amount := 100, item_tax_template := none
    custom_tax_amount := 0, custom_tax_rate := (31 : ℚ)/2
    taxation_type_code := "" }

/-- Counterexample for **C8** as stated: an item with rate 15.5 — at least
8% and below 16% — is assigned code `"B"`, not `"E"`, because the code
applies the thresholds to `round(rate)` and `round(15.5) = 16`. -/
theorem taxation_code_from_rate_counterexample :
    ((8 : ℚ) ≤ cexItemC8.custom_tax_rate ∧ cexItemC8.custom_tax_rate < 16) ∧
    cexItemC8.item_tax_template = none ∧
    assignTaxationTypeCode cexTaxEnvC8 cexItemC8 = "B" ∧
    ("B" : String) ≠ "E" := by
  refine ⟨⟨by norm_num [cexItemC8], by norm_num [cexItemC8]⟩, rfl, ?_, by decide⟩
  rw [assign_of_template_empty cexTaxEnvC8 cexItemC8 rfl,
    rate_code_B cexItemC8 (by
      rw [show cexItemC8.custom_tax_rate = (31 : ℚ)/2 from rfl,
        pyRoundInt_fifteen_and_a_half])]
  simp

/-- Item with an integral back-computed rate of 16 and no template. -/
def witnessItemC8B : DocItem :=
  { item_code := "IT-4", base_net_amount := 100, item_tax_template := none
    custom_tax_amount := 16, custom_tax_rate := 16, taxation_type_code := "" }

/-- Item with a zero back-computed rate and no template. -/
def witnessItemC8A : DocItem :=
  { item_code := "IT-5", base_net_amount := 100, item_tax_template := none
    custom_tax_amount := 0, custom_tax_rate := 0, taxation_type_code := "" }

/-- Witness for **C8 (amended)**: rate 16 yields `"B"`, rate 0 yields
`"A"`. -/
theorem taxation_code_from_rate_spec_witness :
    assignTaxationTypeCode cexTaxEnvC8 witnessItemC8B = "B" ∧
    assignTaxationTypeCode cexTaxEnvC8 witnessItemC8A = "A" :=
  ⟨(taxation_code_from_rate_spec cexTaxEnvC8 witnessItemC8B rfl).1 (by
      rw [show witnessItemC8B.custom_tax_rate = ((16 : ℤ) : ℚ) by
          norm_num [witnessItemC8B],
        pyRoundInt_intCast]),
   (taxation_code_from_rate_spec cexTaxEnvC8 witnessItemC8A rfl).2.2.1 rfl⟩

/-! ## Submission hooks (`overrides/server/shared_overrides.py`,
`overrides/server/sales_invoice.py`) -/

/-- The fields of the submitting document read by
`generic_invoices_before_submit`.  `etr_invoice_number` is `none` when the
attribute is missing (`hasattr` is false). -/
structure SubmitDoc where
  name : String
  prevent_etims_submission : Bool
  etr_invoice_number : Option String
  status : String
  is_return : Bool
  return_against : String
  deriving DecidableEq

/-- The fields of the original invoice that a return is checked against. -/
structure OriginalInvoice where
  custom_successfully_submitted : Bool
  custom_scu_invoice_number : String
  deriving DecidableEq

/-- The dict returned by `send_invoice_to_etims`: `status` is the truthiness
of `response.get("status")`. -/
structure EtimsResponse where
  status : Bool
  message : String
  deriving DecidableEq

/-- The environment of `generic_invoices_before_submit`: the original
invoice looked up by name, and the remote answer per endpoint URL.  The
payload builders and the success-field updates are opaque. -/
structure SubmitEnv where
  getOriginal : String → OriginalInvoice
  sendResult : String → EtimsResponse

/-- How `generic_invoices_before_submit` ends. -/
inductive SubmitOutcome where
  /-- The early guard `return` (nothing sent, nothing raised). -/
  | skipped
  /-- `frappe.throw` before any remote call. -/
  | blocked (msg : String)
  /-- `frappe.throw` after a remote call whose `status` was falsy. -/
  | failedAfterSend (msg : String)
  /-- The success path (`handle_etims_success_response` runs). -/
  | succeeded
  deriving DecidableEq

/-- Whether an outcome is a pre-send blocking error. -/
def SubmitOutcome.isBlocked : SubmitOutcome → Bool
  | .blocked _ => true
  | _ => false

/-- The hard-coded credit-note endpoint of `shared_overrides.py`. -/
def creditNoteUrl : String := "http://41.139.135.45:8089/api/AddSaleCreditNoteV2"

/-- The hard-coded sale endpoint of `shared_overrides.py`. -/
def saleUrl : String := "http://41.139.135.45:8089/api/AddSaleV2"

/-- `generic_invoices_before_submit` from `shared_overrides.py`: outcome
plus the list of endpoint URLs actually sent to. -/
def generic_invoices_before_submit (env : SubmitEnv) (doc : SubmitDoc) :
    SubmitOutcome × List String :=
  if doc.prevent_etims_submission || optStrTruthy doc.etr_invoice_number
      || doc.status == "Credit Note Issued" then (.skipped, [])
  else if doc.is_return then
    if (env.getOriginal doc.return_against).custom_successfully_submitted = false then
      (.blocked ("Return against invoice " ++ doc.return_against ++
        " was not successfully submitted. Cannot process return."), [])
    else if (env.sendResult creditNoteUrl).status = false then
      (.failedAfterSend (env.sendResult creditNoteUrl).message, [creditNoteUrl])
    else (.succeeded, [creditNoteUrl])
  else if (env.sendResult saleUrl).status = false then
    (.failedAfterSend (env.sendResult saleUrl).message, [saleUrl])
  else (.succeeded, [saleUrl])

/-- **C9 (amended).** A return invoice whose original was not successfully
submitted never causes a remote send; and when such a return passes the
initial skip guard (no `prevent_etims_submission`, no truthy
`etr_invoice_number`, status not "Credit Note Issued"), a blocking error is
raised.  (A return caught by the skip guard returns silently instead of
raising.) -/
theorem return_requires_submitted_original (env : SubmitEnv) (doc : SubmitDoc)
    (hret : doc.is_return = true)
    (horig : (env.getOriginal doc.return_against).custom_successfully_submitted
      = false) :
    (generic_invoices_before_submit env doc).2 = [] ∧
    (doc.prevent_etims_submission = false →
      optStrTruthy doc.etr_invoice_number = false →
      doc.status ≠ "Credit Note Issued" →
      (generic_invoices_before_submit env doc).1 =
        .blocked ("Return against invoice " ++ doc.return_against ++
          " was not successfully submitted. Cannot process return.")) := by
  unfold generic_invoices_before_submit
  constructor
  · by_cases hg : doc.prevent_etims_submission || optStrTruthy doc.etr_invoice_number
        || doc.status == "Credit Note Issued"
    · simp [hg]
    · simp [hg, hret, horig]
  · intro h1 h2 h3
    have hg : (doc.prevent_etims_submission || optStrTruthy doc.etr_invoice_number
        || doc.status == "Credit Note Issued") = false := by
      simp [h1, h2, h3]
    simp [hg, hret, horig]

/-- Environment for the **C9** refutation and witness: the original invoice
was never successfully submitted. -/
def cexEnvC9 : SubmitEnv :=
  { getOriginal := fun _ => ⟨false, ""⟩
    sendResult := fun _ => ⟨true, "ok"⟩ }

/-- Return invoice caught by the skip guard (`prevent_etims_submission`). -/
def cexDocC9 : SubmitDoc :=
  { name := "SINV-9", prevent_etims_submission := true
    etr_invoice_number := none, status := "Submitted"
    is_return := true, return_against := "SINV-1" }

/-- Counterexample for **C9** as stated: a return whose original was not
successfully submitted but which carries `prevent_etims_submission` returns
silently (`skipped`) — no blocking error is raised (nothing is sent
either). -/
theorem return_requires_submitted_original_counterexample :
    cexDocC9.is_return = true ∧
    (cexEnvC9.getOriginal cexDocC9.return_against).custom_successfully_submitted
      = false ∧
    generic_invoices_before_submit cexEnvC9 cexDocC9 = (.skipped, []) ∧
    ((generic_invoices_before_submit cexEnvC9 cexDocC9).1).isBlocked = false := by
  decide

/-- Return invoice that passes the skip guard. -/
def witnessDocC9 : SubmitDoc :=
  { name := "SINV-10", prevent_etims_submission := false
    etr_invoice_number := none, status := "Draft"
    is_return := true, return_against := "SINV-1" }

/-- Witness for **C9 (amended)** at a concrete document. -/
theorem return_requires_submitted_original_witness :
    (generic_invoices_before_submit cexEnvC9 witnessDocC9).2 = [] ∧
    (witnessDocC9.prevent_etims_submission = false →
      optStrTruthy witnessDocC9.etr_invoice_number = false →
      witnessDocC9.status ≠ "Credit Note Issued" →
      (generic_invoices_before_submit cexEnvC9 witnessDocC9).1 =
        .blocked ("Return against invoice " ++ witnessDocC9.return_against ++
          " was not successfully submitted. Cannot process return.")) :=
  return_requires_submitted_original cexEnvC9 witnessDocC9 rfl rfl

/-- The fields of the cancelling document read by `before_cancel`
(`overrides/server/sales_invoice.py`). -/
structure CancelDoc where
  doctype : String
  custom_successfully_submitted : Bool
  custom_submitted_successfully : Bool
  deriving DecidableEq

/-- `before_cancel` from `overrides/server/sales_invoice.py`: `some msg`
models `frappe.throw(msg)` (markup stripped), `none` means the hook passes
through. -/
def before_cancel (doc : CancelDoc) : Option String :=
  if doc.doctype == "Sales Invoice" && doc.custom_successfully_submitted then
    some ("This invoice has already been submitted to eTIMS and cannot be "
      ++ "Canceled. If you need to make adjustments, please create a Credit "
      ++ "Note instead.")
  else if doc.doctype == "Purchase Invoice" && doc.custom_submitted_successfully then
    some ("This invoice has already been submitted to eTIMS and cannot be "
      ++ "Canceled. If you need to make adjustments, please create a Debit "
      ++ "Note instead.")
  else none

/-- **C10.** Every Sales Invoice with `custom_successfully_submitted` set
(and every Purchase Invoice with `custom_submitted_successfully` set) is
blocked by `before_cancel`; documents without the respective flag — and
documents of any other doctype — pass through unchanged. -/
theorem before_cancel_spec (doc : CancelDoc) :
    (doc.doctype = "Sales Invoice" → doc.custom_successfully_submitted = true →
      (before_cancel doc).isSome = true) ∧
    (doc.doctype = "Purchase Invoice" → doc.custom_submitted_successfully = true →
      (before_cancel doc).isSome = true) ∧
    (doc.doctype = "Sales Invoice" → doc.custom_successfully_submitted = false →
      before_cancel doc = none) ∧
    (doc.doctype = "Purchase Invoice" → doc.custom_submitted_successfully = false →
      before_cancel doc = none) ∧
    (doc.doctype ≠ "Sales Invoice" → doc.doctype ≠ "Purchase Invoice" →
      before_cancel doc = none) := by
  refine ⟨fun h1 h2 => ?_, fun h1 h2 => ?_, fun h1 h2 => ?_, fun h1 h2 => ?_,
    fun h1 h2 => ?_⟩ <;> simp [before_cancel, h1, h2]

/-- Witness for **C10**: a submitted Sales Invoice is blocked; an
unsubmitted one and a Delivery Note pass through. -/
theorem before_cancel_spec_witness :
    (before_cancel ⟨"Sales Invoice", true, false⟩).isSome = true ∧
    before_cancel ⟨"Sales Invoice", false, false⟩ = none ∧
    (before_cancel ⟨"Purchase Invoice", false, true⟩).isSome = true ∧
    before_cancel ⟨"Delivery Note", true, true⟩ = none :=
  ⟨(before_cancel_spec ⟨"Sales Invoice", true, false⟩).1 rfl rfl,
   (before_cancel_spec ⟨"Sales Invoice", false, false⟩).2.2.1 rfl rfl,
   (before_cancel_spec ⟨"Purchase Invoice", false, true⟩).2.1 rfl rfl,
   (before_cancel_spec ⟨"Delivery Note", true, true⟩).2.2.2.2 (by decide) (by decide)⟩

end MtlTims
